import Mathlib

/-!
Verification of the FlickFindr movie-search backend
(`src/backend/src/search/{models,service,embedding}.py` and
`src/backend/src/search/views.py`).

Modelling conventions:
* A database row of the `movies` table (`src/backend/src/db/entity.py`) is a
  `Movie`; nullable SQL columns become `Option` fields.  Float columns are
  modelled as `ℚ` (the claims under study do not depend on IEEE rounding).
* The catalog (the database table) is a `List Movie` in physical row order.
* SQL `ORDER BY k` is modelled as a stable insertion sort by `k` over the row
  order: the queries in `service.py` order by a single key and name no
  tie-break column, so any tie order consistent with the key is a legal
  execution; the stable sort realises one such execution.
* The pgvector cosine-distance operator applied to the embedded query,
  `plot_embedding <=> CAST(:embedding AS vector)`, is an external collaborator
  (it needs square roots); it is modelled by an opaque parameter
  `dist : List ℚ → ℚ` giving the distance of a stored vector to the query.
* Python truthiness tests (`if request.genre:`, `x or default`,
  `if row.similarity_score`) are modelled faithfully: `None`, `""` and `0`
  are falsy.
-/

namespace FlickFindr

/-! ### String helpers: SQL `ILIKE '%pat%'` as case-insensitive containment -/

/-- `headMatch pat s` is true when `pat` is an initial segment of `s`. -/
def headMatch : List Char → List Char → Bool
  | [], _ => true
  | _ :: _, [] => false
  | a :: as, b :: bs => a == b && headMatch as bs

/-- `containsSeq pat s` is true when `pat` occurs contiguously inside `s`. -/
def containsSeq (pat : List Char) : List Char → Bool
  | [] => headMatch pat []
  | b :: bs => headMatch pat (b :: bs) || containsSeq pat bs

/-- Model of `column ILIKE '%pat%'` (service.py builds every pattern as
`f"%{value}%"`): case-insensitive containment; on a NULL column the SQL
predicate is NULL, so the row is filtered out (`false`).  The user value is
treated as wildcard-free text. -/
def strIlike (field : Option String) (pat : String) : Bool :=
  match field with
  | none => false
  | some s => containsSeq pat.toLower.data s.toLower.data

/-! ### Data model (`src/backend/src/db/entity.py`, `search/models.py`) -/

/-- A row of the `movies` table.  `plot_embedding` is NULL or a
384-dimensional vector. -/
structure Movie where
  id : ℤ
  movie_name : String
  rating : Option ℚ
  runtime : Option ℤ
  genre : Option String
  metascore : Option ℚ
  plot : Option String
  directors : Option String
  stars : Option String
  votes : Option String
  gross : Option String
  poster_url : Option String
  plot_embedding : Option (List ℚ)
deriving DecidableEq, Repr

/-- `SortOrder` enum of `search/models.py`. -/
inductive SortOrder where
  | asc
  | desc
deriving DecidableEq, Repr

/-- `SortBy` enum of `search/models.py`.  Note that the source enum has a
fifth member `SIMILARITY = "similarity"` besides the four documented sort
fields. -/
inductive SortBy where
  | rating
  | runtime
  | name
  | metascore
  | similarity
deriving DecidableEq, Repr

/-- Pydantic validation of the `sort_by` field: a `str`-valued `Enum` accepts
exactly the member values. -/
def sortByOfString (s : String) : Option SortBy :=
  if s = "rating" then some SortBy.rating
  else if s = "runtime" then some SortBy.runtime
  else if s = "movie_name" then some SortBy.name
  else if s = "metascore" then some SortBy.metascore
  else if s = "similarity" then some SortBy.similarity
  else none

/-- `StructuralSearchRequest` of `search/models.py` (validated payload). -/
structure StructuralSearchRequest where
  query : Option String
  genre : Option String
  directors : Option String
  stars : Option String
  min_rating : Option ℚ
  max_rating : Option ℚ
  min_runtime : Option ℤ
  max_runtime : Option ℤ
  sort_by : SortBy
  sort_order : SortOrder
  skip : ℕ
  limit : ℕ
deriving DecidableEq, Repr

/-- The field defaults declared on `StructuralSearchRequest`. -/
def baseRequest : StructuralSearchRequest :=
  { query := none, genre := none, directors := none, stars := none
  , min_rating := none, max_rating := none, min_runtime := none
  , max_runtime := none, sort_by := SortBy.rating, sort_order := SortOrder.desc
  , skip := 0, limit := 10 }

/-- `HybridSearchRequest` of `search/models.py`. -/
structure HybridSearchRequest where
  query : String
  genre : Option String
  directors : Option String
  stars : Option String
  min_rating : Option ℚ
  max_rating : Option ℚ
  min_runtime : Option ℤ
  max_runtime : Option ℤ
  limit : ℕ
deriving DecidableEq, Repr

/-- `MovieResult` of `search/models.py`. -/
structure MovieResult where
  id : ℤ
  movie_name : String
  rating : Option ℚ
  runtime : Option ℤ
  genre : Option String
  metascore : Option ℚ
  plot : Option String
  directors : Option String
  stars : Option String
  votes : Option String
  gross : Option String
  poster_url : Option String
  similarity_score : Option ℚ
deriving DecidableEq, Repr

/-- `MovieResult.model_validate(movie)` in `views.py`: copy the attribute
fields; a `Movie` row has no similarity attribute, so the optional
`similarity_score` keeps its default `None`. -/
def movieToResult (m : Movie) : MovieResult :=
  { id := m.id, movie_name := m.movie_name, rating := m.rating
  , runtime := m.runtime, genre := m.genre, metascore := m.metascore
  , plot := m.plot, directors := m.directors, stars := m.stars
  , votes := m.votes, gross := m.gross, poster_url := m.poster_url
  , similarity_score := none }

/-! ### Structural search (`StructuralSearchService`) -/

/-- A text filter in `build_query` is guarded by Python truthiness
(`if request.query:` etc.): absent or empty-string values impose no
constraint. -/
def optTruthyFilter (o : Option String) (f : String → Bool) : Bool :=
  match o with
  | none => true
  | some s => if s = "" then true else f s

/-- A range filter in `build_query` is guarded by `is not None`: it applies
whenever the bound is present (also when the bound is `0`). -/
def optPresentFilter {α : Type} (o : Option α) (f : α → Bool) : Bool :=
  match o with
  | none => true
  | some v => f v

/-- SQL `column >= bound` under NULL semantics: a NULL column fails the
comparison. -/
def optGeB {α : Type} [LE α] [∀ a b : α, Decidable (a ≤ b)]
    (field : Option α) (bound : α) : Bool :=
  match field with
  | none => false
  | some v => decide (bound ≤ v)

/-- SQL `column <= bound` under NULL semantics. -/
def optLeB {α : Type} [LE α] [∀ a b : α, Decidable (a ≤ b)]
    (field : Option α) (bound : α) : Bool :=
  match field with
  | none => false
  | some v => decide (v ≤ bound)

/-- The WHERE predicate assembled by `StructuralSearchService.build_query`
(service.py lines 25-51): conjunction of the filters present on the
request. -/
def structuralPred (r : StructuralSearchRequest) (m : Movie) : Bool :=
  optTruthyFilter r.query (fun q => strIlike (some m.movie_name) q)
  && optTruthyFilter r.genre (fun g => strIlike m.genre g)
  && optTruthyFilter r.directors (fun d => strIlike m.directors d)
  && optTruthyFilter r.stars (fun s => strIlike m.stars s)
  && optPresentFilter r.min_rating (fun v => optGeB m.rating v)
  && optPresentFilter r.max_rating (fun v => optLeB m.rating v)
  && optPresentFilter r.min_runtime (fun v => optGeB m.runtime v)
  && optPresentFilter r.max_runtime (fun v => optLeB m.runtime v)

/-- The four real columns of `Movie` that a sort key can resolve to. -/
inductive SortColumn where
  | rating
  | runtime
  | movie_name
  | metascore
deriving DecidableEq, Repr

/-- `getattr(Movie, request.sort_by.value)` in `apply_sorting`: the four
documented keys resolve to columns; `"similarity"` is not an attribute of
`Movie`, so the lookup raises `AttributeError` (modelled as `none`). -/
def sortColumnOf : SortBy → Option SortColumn
  | SortBy.rating => some SortColumn.rating
  | SortBy.runtime => some SortColumn.runtime
  | SortBy.name => some SortColumn.movie_name
  | SortBy.metascore => some SortColumn.metascore
  | SortBy.similarity => none

/-- Boolean comparison on `ℚ`. -/
def ratLeB (a b : ℚ) : Bool := decide (a ≤ b)

/-- Boolean comparison on `ℤ`. -/
def intLeB (a b : ℤ) : Bool := decide (a ≤ b)

/-- Lexicographic comparison of character lists (text collation of the
store). -/
def lexLe : List Char → List Char → Bool
  | [], _ => true
  | _ :: _, [] => false
  | a :: as, b :: bs => if a < b then true else if b < a then false else lexLe as bs

/-- Boolean comparison on `String`. -/
def strLeB (a b : String) : Bool := lexLe a.data b.data

/-- A base comparison oriented by the requested sort direction. -/
def dirLe {α : Type} (le : α → α → Bool) (so : SortOrder) (a b : α) : Bool :=
  match so with
  | SortOrder.asc => le a b
  | SortOrder.desc => le b a

/-- Row comparison induced by `ORDER BY col ASC|DESC NULLS LAST` on one
nullable column: NULL rows sort after every non-NULL row in either
direction. -/
def optLe {α : Type} (le : α → α → Bool) (so : SortOrder) :
    Option α → Option α → Bool
  | some a, some b => dirLe le so a b
  | some _, none => true
  | none, some _ => false
  | none, none => true

/-- The row comparison used by `apply_sorting` for a resolved sort column and
direction (service.py lines 53-62). -/
def colKeyLe (c : SortColumn) (so : SortOrder) (a b : Movie) : Bool :=
  match c with
  | SortColumn.rating => optLe ratLeB so a.rating b.rating
  | SortColumn.runtime => optLe intLeB so a.runtime b.runtime
  | SortColumn.movie_name => optLe strLeB so (some a.movie_name) (some b.movie_name)
  | SortColumn.metascore => optLe ratLeB so a.metascore b.metascore

/-- `apply_sorting`: the store returns the rows stably sorted by the single
requested key (no secondary sort key is named in the query). -/
def apply_sorting (c : SortColumn) (so : SortOrder) (l : List Movie) : List Movie :=
  List.insertionSort (fun a b => colKeyLe c so a b = true) l

/-- Result of `StructuralSearchService.execute_search`: page plus the total
match count. -/
structure SearchPage where
  results : List Movie
  total : ℕ
deriving DecidableEq, Repr

/-- `StructuralSearchService.execute_search` (service.py lines 64-87): filter,
count before pagination, sort, then `offset(skip).limit(limit)`.  When the
sort key resolves to no column the call raises (`none`). -/
def execute_search (cat : List Movie) (r : StructuralSearchRequest) : Option SearchPage :=
  match sortColumnOf r.sort_by with
  | none => none
  | some c =>
      some { results :=
               ((apply_sorting c r.sort_order (cat.filter (structuralPred r))).drop r.skip).take r.limit
           , total := (cat.filter (structuralPred r)).length }

/-- `SearchResponse` of `search/models.py` as assembled by the
`/search/structural` view. -/
structure SearchResponse where
  results : List MovieResult
  total : ℕ
  skip : ℕ
  limit : ℕ
  has_more : Bool
deriving DecidableEq, Repr

/-- The `/search/structural` endpoint (views.py lines 22-53): run the search
and attach pagination metadata, with `has_more = skip + len(results) < total`. -/
def structural_search (cat : List Movie) (r : StructuralSearchRequest) : Option SearchResponse :=
  (execute_search cat r).map (fun p =>
    { results := p.results.map movieToResult
    , total := p.total
    , skip := r.skip
    , limit := r.limit
    , has_more := decide (r.skip + p.results.length < p.total) })

/-- `MovieStats` of `search/models.py`. -/
structure MovieStats where
  min_rating : ℚ
  max_rating : ℚ
  min_runtime : ℤ
  max_runtime : ℤ
  total_movies : ℕ
deriving DecidableEq, Repr

/-- Python `value or default` on an optional number: `None` and `0` are
falsy. -/
def pyOr {α : Type} [DecidableEq α] [OfNat α 0] (v : Option α) (d : α) : α :=
  match v with
  | none => d
  | some x => if x = 0 then d else x

/-- `StructuralSearchService.get_stats` (service.py lines 113-130): SQL
`min`/`max` aggregate over the non-NULL column values (NULL on an empty
catalog), `count` over the rows; each aggregate is coalesced with
`or default`. -/
def get_stats (cat : List Movie) : MovieStats :=
  { min_rating := pyOr (cat.filterMap Movie.rating).min? 0
  , max_rating := pyOr (cat.filterMap Movie.rating).max? 10
  , min_runtime := pyOr (cat.filterMap Movie.runtime).min? 0
  , max_runtime := pyOr (cat.filterMap Movie.runtime).max? 300
  , total_movies := pyOr (some cat.length) 0 }

/-! ### Semantic and hybrid search (`SemanticSearchService`) -/

/-- `SIMILARITY_THRESHOLD = 0.6` on `SemanticSearchService`. -/
def SIMILARITY_THRESHOLD : ℚ := 6 / 10

/-- The stored vector of a row; only applied to rows that passed the
`plot_embedding IS NOT NULL` filter. -/
def embOf (m : Movie) : List ℚ := m.plot_embedding.getD []

/-- Floor of a rational, computed on the reduced fraction. -/
def qFloor (x : ℚ) : ℤ := Int.fdiv x.num x.den

/-- Round-half-even on a rational, Python's `round` tie rule. -/
def roundHalfEven (x : ℚ) : ℤ :=
  let f := qFloor x
  let frac := x - (f : ℚ)
  if frac < 1 / 2 then f
  else if 1 / 2 < frac then f + 1
  else if f % 2 = 0 then f else f + 1

/-- Python `round(x, 4)`. -/
def roundQ4 (x : ℚ) : ℚ := ((roundHalfEven (x * 10000) : ℤ) : ℚ) / 10000

/-- Assembly of one result row in `semantic_search` / `hybrid_search`
(service.py lines 174-190 and 271-287): the raw score is
`1 - (plot_embedding <=> query)`; the reported score is
`round(raw, 4) if raw else None`. -/
def toResultEntry (dist : List ℚ → ℚ) (m : Movie) : MovieResult :=
  { movieToResult m with
    similarity_score :=
      if 1 - dist (embOf m) = 0 then none else some (roundQ4 (1 - dist (embOf m))) }

/-- One disjunct of the `exact_matches` check (service.py lines 192-196):
`m["similarity_score"] and m["similarity_score"] >= self.SIMILARITY_THRESHOLD`
under Python truthiness (`None` and `0.0` are falsy). -/
def scoreHit (s : Option ℚ) : Bool :=
  match s with
  | none => false
  | some v => (!decide (v = 0)) && decide (SIMILARITY_THRESHOLD ≤ v)

/-- Response shape shared by `semantic_search` and `hybrid_search`. -/
structure SemanticSearchResult where
  movies : List MovieResult
  exact_matches : Bool
  message : String
deriving DecidableEq, Repr

/-- `SemanticSearchService.semantic_search` (service.py lines 146-215).
`dist` models the pgvector operator `plot_embedding <=> CAST(:emb AS vector)`
for the embedded request query; the SQL keeps rows with a non-NULL embedding,
orders by distance (no tie-break column, so ties keep row order), and takes
`LIMIT request.limit`. -/
def semantic_search (cat : List Movie) (dist : List ℚ → ℚ) (limit : ℕ) :
    SemanticSearchResult :=
  let rows := (List.insertionSort (fun a b => dist (embOf a) ≤ dist (embOf b))
      (cat.filter (fun m => m.plot_embedding.isSome))).take limit
  let movies := rows.map (toResultEntry dist)
  let exact := movies.any (fun e => scoreHit e.similarity_score)
  { movies := movies
  , exact_matches := exact
  , message :=
      if exact then "Movies found matching your query"
      else if !movies.isEmpty then "No exact matches found, but here are some similar movies"
      else "No movies found" }

/-- The WHERE clause assembled by `hybrid_search` (service.py lines 230-256):
`plot_embedding IS NOT NULL` plus one clause per truthy/present filter of the
request, conjoined with AND. -/
def hybridPred (h : HybridSearchRequest) (m : Movie) : Bool :=
  m.plot_embedding.isSome
  && optTruthyFilter h.genre (fun g => strIlike m.genre g)
  && optTruthyFilter h.directors (fun d => strIlike m.directors d)
  && optTruthyFilter h.stars (fun s => strIlike m.stars s)
  && optPresentFilter h.min_rating (fun v => optGeB m.rating v)
  && optPresentFilter h.max_rating (fun v => optLeB m.rating v)
  && optPresentFilter h.min_runtime (fun v => optGeB m.runtime v)
  && optPresentFilter h.max_runtime (fun v => optLeB m.runtime v)

/-- `SemanticSearchService.hybrid_search` (service.py lines 217-312): same
pipeline as `semantic_search` but over the rows passing the structural WHERE
clause, and with a distinct empty-result message. -/
def hybrid_search (cat : List Movie) (dist : List ℚ → ℚ) (h : HybridSearchRequest) :
    SemanticSearchResult :=
  let rows := (List.insertionSort (fun a b => dist (embOf a) ≤ dist (embOf b))
      (cat.filter (hybridPred h))).take h.limit
  let movies := rows.map (toResultEntry dist)
  let exact := movies.any (fun e => scoreHit e.similarity_score)
  { movies := movies
  , exact_matches := exact
  , message :=
      if exact then "Movies found matching your query"
      else if !movies.isEmpty then "No exact matches found, but here are some similar movies"
      else "No movies found matching your criteria" }

/-- The structural filter set a hybrid request induces, per spec section 4.4:
the `StructuralSearchRequest` carrying the same filter fields, no name query
(a hybrid request has no name-substring field), and arbitrary
sort/pagination.  Stated from the spec for the comparison theorem of the
hybrid candidate set. -/
def hybridFilters (h : HybridSearchRequest) : StructuralSearchRequest :=
  { query := none, genre := h.genre, directors := h.directors, stars := h.stars
  , min_rating := h.min_rating, max_rating := h.max_rating
  , min_runtime := h.min_runtime, max_runtime := h.max_runtime
  , sort_by := SortBy.rating, sort_order := SortOrder.desc
  , skip := 0, limit := h.limit }

/-! ### Embedding provider (`src/backend/src/search/embedding.py`) -/

/-- `not text or not text.strip()`: the text is empty or whitespace-only. -/
def isBlank (s : String) : Bool := s.data.all Char.isWhitespace

/-- `generate_embedding` (embedding.py lines 25-41).  `encode` models
`get_model().encode` on one text. -/
def generate_embedding (encode : String → List ℚ) (text : String) : List ℚ :=
  if isBlank text then List.replicate 384 0 else encode text

/-- `batch_generate_embeddings` (embedding.py lines 44-77): blank texts are
replaced by `""` before encoding, the whole batch is encoded (the model
encodes each item independently; `batch_size` only chunks the work), and the
entries of blank inputs are replaced by zero vectors. -/
def batch_generate_embeddings (encode : String → List ℚ) (texts : List String) :
    List (List ℚ) :=
  let processed := texts.map (fun t => if isBlank t then "" else t)
  let embeddings := processed.map encode
  (List.zip processed embeddings).map
    (fun p => if p.1 = "" then List.replicate 384 0 else p.2)

/-! ### Claim-level properties and concrete data -/

/-- The spec's ordering property for one nullable sort key, stated from its
words: in the page sequence, a null-keyed record never precedes a non-null
one, and non-null keys are monotone in the requested direction. -/
def nullsLastMonotone {α : Type} (le : α → α → Bool) (so : SortOrder)
    (key : Movie → Option α) (l : List Movie) : Prop :=
  List.Pairwise (fun a b =>
    (key a = none → key b = none) ∧
    (∀ va vb, key a = some va → key b = some vb → dirLe le so va vb = true)) l

/-- `nullsLastMonotone` instantiated at the field a sort column denotes. -/
def sortFieldOk (c : SortColumn) (so : SortOrder) (l : List Movie) : Prop :=
  match c with
  | SortColumn.rating => nullsLastMonotone ratLeB so (fun m => m.rating) l
  | SortColumn.runtime => nullsLastMonotone intLeB so (fun m => m.runtime) l
  | SortColumn.movie_name => nullsLastMonotone strLeB so (fun m => some m.movie_name) l
  | SortColumn.metascore => nullsLastMonotone ratLeB so (fun m => m.metascore) l

/-- A catalog row with the fields the tested scenarios need; the remaining
text columns are NULL. -/
def mkMovie (i : ℤ) (nm : String) (rat : Option ℚ) (rt : Option ℤ)
    (emb : Option (List ℚ)) : Movie :=
  { id := i, movie_name := nm, rating := rat, runtime := rt, genre := none
  , metascore := none, plot := none, directors := none, stars := none
  , votes := none, gross := none, poster_url := none, plot_embedding := emb }

/-- Concrete rows for the witness scenarios. -/
def mvA : Movie := mkMovie 1 ("A") (some 5) none (some [1])
def mvB : Movie := mkMovie 2 ("B") none none none
def mvC : Movie := mkMovie 3 ("C") (some 7) none none

/-- A three-row catalog with one NULL rating. -/
def catW : List Movie := [mvA, mvB, mvC]

/-- The default request with `skip = 1`, `limit = 1`. -/
def reqW5 : StructuralSearchRequest := { baseRequest with skip := 1, limit := 1 }

/-- Expected `/search/structural` response for `catW`, `reqW5`. -/
def respW5 : SearchResponse :=
  { results := [movieToResult mvA], total := 3, skip := 1, limit := 1, has_more := true }

/-- Expected `execute_search` output for `catW` with the default request. -/
def pageW : SearchPage := { results := [mvC, mvA, mvB], total := 3 }

/-- Two embedded rows stored in descending-id order, used to exercise
equal-distance ties. -/
def cexB : Movie := mkMovie 2 ("B") none none (some [1])
def cexA : Movie := mkMovie 1 ("A") none none (some [1])

/-- A hybrid request with no optional filter set. -/
def baseHybrid : HybridSearchRequest :=
  { query := "qqq", genre := none, directors := none, stars := none
  , min_rating := none, max_rating := none, min_runtime := none
  , max_runtime := none, limit := 10 }

/-! ### Order properties of the sort comparators -/

theorem lexLe_total (xs ys : List Char) : (lexLe xs ys || lexLe ys xs) = true := by
  induction xs generalizing ys with
  | nil => simp [lexLe]
  | cons a as ih =>
    cases ys with
    | nil => simp [lexLe]
    | cons b bs =>
      by_cases hab : a < b
      · have hba : ¬ b < a := asymm hab
        simp [lexLe, hab, hba]
      · by_cases hba : b < a
        · simp [lexLe, hab, hba]
        · simp [lexLe, hab, hba, ih bs]

theorem lexLe_trans (xs ys zs : List Char) (h1 : lexLe xs ys = true)
    (h2 : lexLe ys zs = true) : lexLe xs zs = true := by
  induction xs generalizing ys zs with
  | nil => simp [lexLe]
  | cons a as ih =>
    cases ys with
    | nil => simp [lexLe] at h1
    | cons b bs =>
      cases zs with
      | nil => simp [lexLe] at h2
      | cons c cs =>
        by_cases hab : a < b
        · by_cases hbc : b < c
          · simp [lexLe, lt_trans hab hbc]
          · by_cases hcb : c < b
            · have hbca : ¬ b < c := asymm hcb
              simp [lexLe, hbca, hcb] at h2
            · have hbc' : b = c := le_antisymm (le_of_not_lt hcb) (le_of_not_lt hbc)
              simp [lexLe, hbc' ▸ hab]
        · by_cases hba : b < a
          · simp [lexLe, hab, hba] at h1
          · have hab' : a = b := le_antisymm (le_of_not_lt hba) (le_of_not_lt hab)
            subst hab'
            simp only [lexLe, if_neg hab, if_neg hba] at h1
            by_cases hac : a < c
            · simp [lexLe, hac]
            · by_cases hca : c < a
              · simp [lexLe, hac, hca] at h2
              · simp only [lexLe, if_neg hac, if_neg hca] at h2 ⊢
                exact ih bs cs h1 h2

theorem ratLeB_total (a b : ℚ) : (ratLeB a b || ratLeB b a) = true := by
  simp [ratLeB]; exact le_total a b

theorem ratLeB_trans (a b c : ℚ) (h1 : ratLeB a b = true) (h2 : ratLeB b c = true) :
    ratLeB a c = true := by
  simp [ratLeB] at h1 h2 ⊢; exact le_trans h1 h2

theorem intLeB_total (a b : ℤ) : (intLeB a b || intLeB b a) = true := by
  simp [intLeB]; exact le_total a b

theorem intLeB_trans (a b c : ℤ) (h1 : intLeB a b = true) (h2 : intLeB b c = true) :
    intLeB a c = true := by
  simp [intLeB] at h1 h2 ⊢; exact le_trans h1 h2

theorem strLeB_total (a b : String) : (strLeB a b || strLeB b a) = true :=
  lexLe_total a.data b.data

theorem strLeB_trans (a b c : String) (h1 : strLeB a b = true) (h2 : strLeB b c = true) :
    strLeB a c = true :=
  lexLe_trans a.data b.data c.data h1 h2

theorem optLe_total {α : Type} (le : α → α → Bool)
    (hTot : ∀ a b, (le a b || le b a) = true) (so : SortOrder) (x y : Option α) :
    (optLe le so x y || optLe le so y x) = true := by
  cases x with
  | none => cases y <;> simp [optLe]
  | some a =>
    cases y with
    | none => simp [optLe]
    | some b =>
      cases so with
      | asc => simp only [optLe]; exact hTot a b
      | desc => simp only [optLe]; rw [Bool.or_comm]; exact hTot a b

theorem optLe_trans {α : Type} (le : α → α → Bool)
    (hTrans : ∀ a b c, le a b = true → le b c = true → le a c = true)
    (so : SortOrder) (x y z : Option α) (h1 : optLe le so x y = true)
    (h2 : optLe le so y z = true) : optLe le so x z = true := by
  cases x with
  | none =>
    cases y with
    | none => exact h2
    | some b => simp [optLe] at h1
  | some a =>
    cases z with
    | none => simp [optLe]
    | some cv =>
      cases y with
      | none => simp [optLe] at h2
      | some b =>
        cases so with
        | asc =>
          simp only [optLe] at h1 h2 ⊢
          exact hTrans a b cv h1 h2
        | desc =>
          simp only [optLe] at h1 h2 ⊢
          exact hTrans cv b a h2 h1

theorem colKeyLe_total (c : SortColumn) (so : SortOrder) (a b : Movie) :
    (colKeyLe c so a b || colKeyLe c so b a) = true := by
  cases c <;> simp only [colKeyLe]
  · exact optLe_total ratLeB ratLeB_total so a.rating b.rating
  · exact optLe_total intLeB intLeB_total so a.runtime b.runtime
  · exact optLe_total strLeB strLeB_total so (some a.movie_name) (some b.movie_name)
  · exact optLe_total ratLeB ratLeB_total so a.metascore b.metascore

theorem colKeyLe_trans (c : SortColumn) (so : SortOrder) (a b d : Movie)
    (h1 : colKeyLe c so a b = true) (h2 : colKeyLe c so b d = true) :
    colKeyLe c so a d = true := by
  cases c <;> simp only [colKeyLe] at h1 h2 ⊢
  · exact optLe_trans ratLeB ratLeB_trans so _ _ _ h1 h2
  · exact optLe_trans intLeB intLeB_trans so _ _ _ h1 h2
  · exact optLe_trans strLeB strLeB_trans so _ _ _ h1 h2
  · exact optLe_trans ratLeB ratLeB_trans so _ _ _ h1 h2

/-! ### Claim theorems -/

/-- C9: on an empty catalog `get_stats` returns exactly the defined defaults
`{min_rating: 0.0, max_rating: 10.0, min_runtime: 0, max_runtime: 300,
total_movies: 0}` rather than nulls or an error. -/
theorem get_stats_empty_defaults :
    get_stats [] =
      { min_rating := 0, max_rating := 10, min_runtime := 0
      , max_runtime := 300, total_movies := 0 } := by
  rfl

/-- C8 (failing input): the sort keys accepted by request validation are NOT
restricted to `{rating, runtime, movie_name, metascore}` — the enum also
accepts the string value of its fifth member, `"similarity"`, and executing a
structural search with it fails (in the source, `getattr(Movie, "similarity")`
raises `AttributeError`, surfaced as a 500 error) instead of being rejected
as invalid, while the four documented keys all resolve and execute. -/
theorem sortBy_similarity_accepted_then_crashes :
    sortByOfString ("similarity") = some SortBy.similarity ∧
    (SortBy.similarity ∈ [SortBy.rating, SortBy.runtime, SortBy.name, SortBy.metascore]) = False ∧
    sortColumnOf SortBy.similarity = none ∧
    execute_search catW { baseRequest with sort_by := SortBy.similarity } = none ∧
    ([SortBy.rating, SortBy.runtime, SortBy.name, SortBy.metascore].all
      (fun sb => (sortColumnOf sb).isSome)) = true := by
  refine ⟨by decide, by simp, rfl, rfl, by decide⟩

/-- C6: the embedding provider maps every blank (empty or whitespace-only)
text to the all-zero vector of length 384 independently of the underlying
model, and the batch path agrees with the single-text path item by item. -/
theorem embedding_blank_zero_and_batch_single_agree :
    ∀ encode : String → List ℚ,
      (∀ t, isBlank t = true → generate_embedding encode t = List.replicate 384 0) ∧
      generate_embedding encode ("") = List.replicate 384 0 ∧
      generate_embedding encode ("   ") = List.replicate 384 0 ∧
      ∀ texts : List String,
        batch_generate_embeddings encode texts = texts.map (generate_embedding encode) := by
  intro encode
  refine ⟨?_, ?_, ?_, ?_⟩
  · intro t ht
    simp only [generate_embedding, if_pos ht]
  · rfl
  · rfl
  · intro texts
    induction texts with
    | nil => rfl
    | cons t ts ih =>
      have hcons : batch_generate_embeddings encode (t :: ts)
          = generate_embedding encode t :: batch_generate_embeddings encode ts := by
        simp only [batch_generate_embeddings, List.map_cons, List.zip_cons_cons,
          List.map_cons]
        congr 1
        by_cases ht : isBlank t = true
        · rw [if_pos ht, if_pos rfl, generate_embedding, if_pos ht]
        · have ht' : ¬ t = "" := by
            intro he
            rw [he] at ht
            exact ht rfl
          rw [if_neg ht, if_neg ht', generate_embedding, if_neg ht]
      rw [hcons, List.map_cons, ih]

/-- C6 witness: the theorem applied to a concrete model function and the
whitespace-only text `" "`. -/
theorem embedding_blank_zero_witness :
    isBlank (" ") = true ∧
    generate_embedding (fun _ => [1, 2]) (" ") = List.replicate 384 0 :=
  ⟨by decide,
   (embedding_blank_zero_and_batch_single_agree (fun _ => [1, 2])).1 (" ") (by decide)⟩

/-- The `exact_matches` computation over a result list is true exactly when
some entry reports a score at or above the threshold. -/
theorem any_scoreHit_iff (movies : List MovieResult) :
    (movies.any (fun e => scoreHit e.similarity_score) = true) ↔
      ∃ e ∈ movies, ∃ s, e.similarity_score = some s ∧ SIMILARITY_THRESHOLD ≤ s := by
  rw [List.any_eq_true]
  constructor
  · rintro ⟨e, he, hhit⟩
    refine ⟨e, he, ?_⟩
    cases hs : e.similarity_score with
    | none => rw [hs] at hhit; exact absurd hhit (by simp [scoreHit])
    | some v =>
      rw [hs] at hhit
      simp only [scoreHit, Bool.and_eq_true, decide_eq_true_eq] at hhit
      exact ⟨v, rfl, hhit.2⟩
  · rintro ⟨e, he, s, hs, hths⟩
    refine ⟨e, he, ?_⟩
    rw [hs]
    simp only [scoreHit, Bool.and_eq_true, decide_eq_true_eq, Bool.not_eq_true']
    have hpos : (0 : ℚ) < SIMILARITY_THRESHOLD := by norm_num [SIMILARITY_THRESHOLD]
    refine ⟨by simp [ne_of_gt (lt_of_lt_of_le hpos hths)], hths⟩

/-- C1: for every semantic and every hybrid search, `exact_matches` is true
iff some result of the returned top-limit list reports a similarity score at
or above the fixed threshold 0.6; a reported score of exactly 0.6 clears the
check and 0.5999 does not.  The flag is computed from the returned list only,
so results outside it cannot influence it. -/
theorem exact_matches_iff_threshold :
    ∀ (cat : List Movie) (dist : List ℚ → ℚ) (limit : ℕ) (h : HybridSearchRequest),
    scoreHit (some (6 / 10)) = true ∧
    scoreHit (some (5999 / 10000)) = false ∧
    ((semantic_search cat dist limit).exact_matches = true ↔
      ∃ e ∈ (semantic_search cat dist limit).movies,
        ∃ s, e.similarity_score = some s ∧ SIMILARITY_THRESHOLD ≤ s) ∧
    ((hybrid_search cat dist h).exact_matches = true ↔
      ∃ e ∈ (hybrid_search cat dist h).movies,
        ∃ s, e.similarity_score = some s ∧ SIMILARITY_THRESHOLD ≤ s) := by
  intro cat dist limit h
  refine ⟨?_, ?_, ?_, ?_⟩
  · simp only [scoreHit, SIMILARITY_THRESHOLD]
    norm_num
  · simp only [scoreHit, SIMILARITY_THRESHOLD]
    norm_num
  · exact any_scoreHit_iff (semantic_search cat dist limit).movies
  · exact any_scoreHit_iff (hybrid_search cat dist h).movies

/-- C4: the returned message follows the exact string policy by priority for
both engines, with the engines differing only in the empty-result string. -/
theorem message_policy :
    ∀ (cat : List Movie) (dist : List ℚ → ℚ) (limit : ℕ) (h : HybridSearchRequest),
    ((semantic_search cat dist limit).exact_matches = true →
      (semantic_search cat dist limit).message = "Movies found matching your query") ∧
    ((semantic_search cat dist limit).exact_matches = false →
      (semantic_search cat dist limit).movies ≠ [] →
      (semantic_search cat dist limit).message
        = "No exact matches found, but here are some similar movies") ∧
    ((semantic_search cat dist limit).movies = [] →
      (semantic_search cat dist limit).message = "No movies found") ∧
    ((hybrid_search cat dist h).exact_matches = true →
      (hybrid_search cat dist h).message = "Movies found matching your query") ∧
    ((hybrid_search cat dist h).exact_matches = false →
      (hybrid_search cat dist h).movies ≠ [] →
      (hybrid_search cat dist h).message
        = "No exact matches found, but here are some similar movies") ∧
    ((hybrid_search cat dist h).movies = [] →
      (hybrid_search cat dist h).message = "No movies found matching your criteria") := by
  intro cat dist limit h
  have hsem : (semantic_search cat dist limit).message
      = (if (semantic_search cat dist limit).exact_matches
          then "Movies found matching your query"
          else if !(semantic_search cat dist limit).movies.isEmpty
          then "No exact matches found, but here are some similar movies"
          else "No movies found") := rfl
  have hsemE : (semantic_search cat dist limit).exact_matches
      = (semantic_search cat dist limit).movies.any (fun e => scoreHit e.similarity_score) := rfl
  have hhyb : (hybrid_search cat dist h).message
      = (if (hybrid_search cat dist h).exact_matches
          then "Movies found matching your query"
          else if !(hybrid_search cat dist h).movies.isEmpty
          then "No exact matches found, but here are some similar movies"
          else "No movies found matching your criteria") := rfl
  have hhybE : (hybrid_search cat dist h).exact_matches
      = (hybrid_search cat dist h).movies.any (fun e => scoreHit e.similarity_score) := rfl
  refine ⟨?_, ?_, ?_, ?_, ?_, ?_⟩
  · intro he; rw [hsem, he]; rfl
  · intro he hne
    rw [hsem, he]
    simp [List.isEmpty_iff, hne]
  · intro hm
    have he : (semantic_search cat dist limit).exact_matches = false := by
      rw [hsemE, hm]; rfl
    rw [hsem, he, hm]
    rfl
  · intro he; rw [hhyb, he]; rfl
  · intro he hne
    rw [hhyb, he]
    simp [List.isEmpty_iff, hne]
  · intro hm
    have he : (hybrid_search cat dist h).exact_matches = false := by
      rw [hhybE, hm]; rfl
    rw [hhyb, he, hm]
    rfl

/-- C4 witness: on the empty catalog both engines report their empty-result
strings. -/
theorem message_policy_witness :
    (semantic_search [] (fun _ => 0) 10).movies = [] ∧
    (semantic_search [] (fun _ => 0) 10).message = "No movies found" ∧
    (hybrid_search [] (fun _ => 0) baseHybrid).movies = [] ∧
    (hybrid_search [] (fun _ => 0) baseHybrid).message
      = "No movies found matching your criteria" :=
  ⟨rfl,
   (message_policy [] (fun _ => 0) 10 baseHybrid).2.2.1 rfl,
   rfl,
   (message_policy [] (fun _ => 0) 10 baseHybrid).2.2.2.2.2 rfl⟩

/-- Every entry of a semantic result list is the image of a catalog row with
a non-null embedding. -/
theorem mem_semantic_movies {cat : List Movie} {dist : List ℚ → ℚ} {limit : ℕ}
    {e : MovieResult} (he : e ∈ (semantic_search cat dist limit).movies) :
    ∃ m ∈ cat, m.plot_embedding.isSome = true ∧ e = toResultEntry dist m := by
  rcases List.mem_map.mp he with ⟨m, hm, hme⟩
  have hm2 := (List.take_sublist limit _).subset hm
  have hm3 := (List.perm_insertionSort
      (fun a b => dist (embOf a) ≤ dist (embOf b))
      (cat.filter (fun m => m.plot_embedding.isSome))).subset hm2
  rcases List.mem_filter.mp hm3 with ⟨hmc, hpred⟩
  exact ⟨m, hmc, hpred, hme.symm⟩

/-- Every entry of a hybrid result list is the image of a catalog row passing
the hybrid WHERE clause. -/
theorem mem_hybrid_movies {cat : List Movie} {dist : List ℚ → ℚ}
    {h : HybridSearchRequest} {e : MovieResult}
    (he : e ∈ (hybrid_search cat dist h).movies) :
    ∃ m ∈ cat, hybridPred h m = true ∧ e = toResultEntry dist m := by
  rcases List.mem_map.mp he with ⟨m, hm, hme⟩
  have hm2 := (List.take_sublist h.limit _).subset hm
  have hm3 := (List.perm_insertionSort
      (fun a b => dist (embOf a) ≤ dist (embOf b))
      (cat.filter (hybridPred h))).subset hm2
  rcases List.mem_filter.mp hm3 with ⟨hmc, hpred⟩
  exact ⟨m, hmc, hpred, hme.symm⟩

/-- C2 (amended): for every semantic and hybrid search, the returned list is
the image of a row list ordered by non-increasing similarity (equivalently
non-decreasing distance to the query); no tie-break between equal
similarities is applied. -/
theorem results_sorted_by_similarity :
    ∀ (cat : List Movie) (dist : List ℚ → ℚ) (limit : ℕ) (h : HybridSearchRequest),
    (∃ rows : List Movie,
      (semantic_search cat dist limit).movies = rows.map (toResultEntry dist) ∧
      rows.Pairwise (fun a b => 1 - dist (embOf b) ≤ 1 - dist (embOf a))) ∧
    (∃ rows : List Movie,
      (hybrid_search cat dist h).movies = rows.map (toResultEntry dist) ∧
      rows.Pairwise (fun a b => 1 - dist (embOf b) ≤ 1 - dist (embOf a))) := by
  intro cat dist limit h
  haveI hTot : IsTotal Movie (fun a b : Movie => dist (embOf a) ≤ dist (embOf b)) :=
    ⟨fun a b => le_total _ _⟩
  haveI hTrans : IsTrans Movie (fun a b : Movie => dist (embOf a) ≤ dist (embOf b)) :=
    ⟨fun _ _ _ hab hbc => le_trans hab hbc⟩
  constructor
  · refine ⟨(List.insertionSort (fun a b => dist (embOf a) ≤ dist (embOf b))
        (cat.filter (fun m => m.plot_embedding.isSome))).take limit, rfl, ?_⟩
    have hs := List.sorted_insertionSort
      (fun a b : Movie => dist (embOf a) ≤ dist (embOf b))
      (cat.filter (fun m => m.plot_embedding.isSome))
    exact (List.Pairwise.sublist (List.take_sublist limit _) hs).imp
      (fun hab => sub_le_sub_left hab 1)
  · refine ⟨(List.insertionSort (fun a b => dist (embOf a) ≤ dist (embOf b))
        (cat.filter (hybridPred h))).take h.limit, rfl, ?_⟩
    have hs := List.sorted_insertionSort
      (fun a b : Movie => dist (embOf a) ≤ dist (embOf b))
      (cat.filter (hybridPred h))
    exact (List.Pairwise.sublist (List.take_sublist h.limit _) hs).imp
      (fun hab => sub_le_sub_left hab 1)

/-- C2 counterexample: the queries order by distance alone, with no id
tie-break, so two rows at equal distance come back in row (storage) order.
With rows stored in descending-id order and a query equidistant from both,
the returned equal-similarity results have descending ids, refuting the
claimed ascending-id tie ordering (and hence the claimed determinism of the
page under re-orderings of equal-distance rows). -/
theorem semantic_tie_not_id_ordered :
    ¬ List.Pairwise
        (fun a b : MovieResult => a.similarity_score = b.similarity_score → a.id ≤ b.id)
        ((semantic_search [cexB, cexA] (fun _ => 0) 10).movies) := by
  intro hp
  have hmv : (semantic_search [cexB, cexA] (fun _ => 0) 10).movies
      = [toResultEntry (fun _ => 0) cexB, toResultEntry (fun _ => 0) cexA] := by
    simp [semantic_search, List.insertionSort, List.orderedInsert, cexA, cexB, mkMovie,
      List.filter]
  rw [hmv] at hp
  rcases List.pairwise_cons.mp hp with ⟨h1, _⟩
  have h2 := h1 (toResultEntry (fun _ => 0) cexA) (by simp) rfl
  simp only [toResultEntry, movieToResult, cexA, cexB, mkMovie] at h2
  norm_num at h2

/-- The hybrid WHERE clause coincides with the structural predicate over the
hybrid request's filter fields conjoined with the non-null-embedding test. -/
theorem hybridPred_eq (h : HybridSearchRequest) (m : Movie) :
    hybridPred h m
      = (structuralPred (hybridFilters h) m && m.plot_embedding.isSome) := by
  cases hE : m.plot_embedding.isSome <;>
    simp [hybridPred, structuralPred, hybridFilters, hE, optTruthyFilter,
      Bool.and_assoc]

/-- C3: for every hybrid search, the candidate set is exactly the records
satisfying the Structural Search Engine's predicate over the request's filter
fields (the name-substring filter instantiated to absent, since a hybrid
request carries none; sort and pagination ignored) that also have a non-null
embedding, and only such records can appear among the results. -/
theorem hybrid_candidates_structural_and_embedded :
    ∀ (h : HybridSearchRequest) (cat : List Movie) (dist : List ℚ → ℚ),
    cat.filter (hybridPred h)
      = cat.filter (fun m => structuralPred (hybridFilters h) m && m.plot_embedding.isSome) ∧
    ∀ e ∈ (hybrid_search cat dist h).movies, ∃ m ∈ cat,
      structuralPred (hybridFilters h) m = true ∧ m.plot_embedding.isSome = true ∧
      e = toResultEntry dist m := by
  intro h cat dist
  constructor
  · exact List.filter_congr (fun m _ => hybridPred_eq h m)
  · intro e he
    rcases mem_hybrid_movies he with ⟨m, hmc, hpred, hme⟩
    rw [hybridPred_eq, Bool.and_eq_true] at hpred
    exact ⟨m, hmc, hpred.1, hpred.2, hme⟩

/-- C3 witness: the theorem applied to a one-row catalog whose row passes an
empty filter set and carries an embedding. -/
theorem hybrid_candidates_witness :
    (toResultEntry (fun _ => 0) cexA) ∈ (hybrid_search [cexA] (fun _ => 0) baseHybrid).movies ∧
    ∃ m ∈ [cexA],
      structuralPred (hybridFilters baseHybrid) m = true ∧ m.plot_embedding.isSome = true ∧
      (toResultEntry (fun _ => 0) cexA) = toResultEntry (fun _ => 0) m :=
  ⟨by simp [hybrid_search, hybridPred, cexA, mkMovie, List.filter, optTruthyFilter,
      optPresentFilter, baseHybrid, List.insertionSort, List.orderedInsert],
   (hybrid_candidates_structural_and_embedded baseHybrid [cexA] (fun _ => 0)).2
     (toResultEntry (fun _ => 0) cexA)
     (by simp [hybrid_search, hybridPred, cexA, mkMovie, List.filter, optTruthyFilter,
        optPresentFilter, baseHybrid, List.insertionSort, List.orderedInsert])⟩

/-- C10: every returned semantic/hybrid entry comes from a catalog row; its
reported score is `None` when the computed raw similarity `1 - distance` is
exactly `0`, and the raw score rounded to four decimals otherwise; and
entries reporting `None` never influence `exact_matches` (the flag equals the
same check run only over entries with a non-`None` report). -/
theorem reported_similarity_score_policy :
    ∀ (cat : List Movie) (dist : List ℚ → ℚ) (limit : ℕ) (h : HybridSearchRequest),
    (∀ e ∈ (semantic_search cat dist limit).movies, ∃ m ∈ cat,
      e = toResultEntry dist m ∧
      e.similarity_score
        = (if 1 - dist (embOf m) = 0 then none else some (roundQ4 (1 - dist (embOf m))))) ∧
    ((semantic_search cat dist limit).exact_matches
      = ((semantic_search cat dist limit).movies.filter
          (fun e => e.similarity_score.isSome)).any (fun e => scoreHit e.similarity_score)) ∧
    (∀ e ∈ (hybrid_search cat dist h).movies, ∃ m ∈ cat,
      e = toResultEntry dist m ∧
      e.similarity_score
        = (if 1 - dist (embOf m) = 0 then none else some (roundQ4 (1 - dist (embOf m))))) ∧
    ((hybrid_search cat dist h).exact_matches
      = ((hybrid_search cat dist h).movies.filter
          (fun e => e.similarity_score.isSome)).any (fun e => scoreHit e.similarity_score)) := by
  intro cat dist limit h
  have hflag : ∀ movies : List MovieResult,
      movies.any (fun e => scoreHit e.similarity_score)
        = (movies.filter (fun e => e.similarity_score.isSome)).any
            (fun e => scoreHit e.similarity_score) := by
    intro movies
    have hpt : ∀ e : MovieResult,
        (e.similarity_score.isSome && scoreHit e.similarity_score)
          = scoreHit e.similarity_score := by
      intro e
      cases hs : e.similarity_score <;> simp [scoreHit, hs]
    rw [List.any_filter]
    simp only [hpt]
  refine ⟨?_, hflag _, ?_, hflag _⟩
  · intro e he
    rcases mem_semantic_movies he with ⟨m, hmc, _, hme⟩
    refine ⟨m, hmc, hme, ?_⟩
    rw [hme]
    rfl
  · intro e he
    rcases mem_hybrid_movies he with ⟨m, hmc, _, hme⟩
    refine ⟨m, hmc, hme, ?_⟩
    rw [hme]
    rfl

/-- C10 witness: the theorem applied to a one-row catalog at distance `0`,
whose entry reports the rounded raw score `1`. -/
theorem reported_similarity_score_witness :
    (toResultEntry (fun _ => 0) cexA) ∈ (semantic_search [cexA] (fun _ => 0) 10).movies ∧
    ∃ m ∈ [cexA],
      (toResultEntry (fun _ => 0) cexA) = toResultEntry (fun _ => 0) m ∧
      (toResultEntry (fun _ => 0) cexA).similarity_score
        = (if 1 - (fun _ : List ℚ => (0:ℚ)) (embOf m) = 0 then none
           else some (roundQ4 (1 - (fun _ : List ℚ => (0:ℚ)) (embOf m)))) :=
  ⟨by simp [semantic_search, cexA, mkMovie, List.filter, List.insertionSort,
      List.orderedInsert],
   (reported_similarity_score_policy [cexA] (fun _ => 0) 10 baseHybrid).1
     (toResultEntry (fun _ => 0) cexA)
     (by simp [semantic_search, cexA, mkMovie, List.filter, List.insertionSort,
        List.orderedInsert])⟩

/-- Shape of a successful `execute_search` once the sort key resolves. -/
theorem execute_search_eq_some (cat : List Movie) (r : StructuralSearchRequest)
    (c : SortColumn) (hc : sortColumnOf r.sort_by = some c) :
    execute_search cat r = some
      { results := ((apply_sorting c r.sort_order (cat.filter (structuralPred r))).drop
          r.skip).take r.limit
      , total := (cat.filter (structuralPred r)).length } := by
  simp [execute_search, hc]

/-- C5: for every structural search that executes, the reported total is the
count of records matching the filters, computed before pagination and
unchanged under any skip/limit; the page length is
`min limit (total - skip)` (truncated subtraction, so skipping past the end
gives an empty page rather than an error); and
`has_more = (skip + len(page) < total)`. -/
theorem structural_pagination :
    ∀ (cat : List Movie) (r : StructuralSearchRequest) (resp : SearchResponse),
    1 ≤ r.limit → structural_search cat r = some resp →
    resp.total = (cat.filter (structuralPred r)).length ∧
    (∀ (s2 l2 : ℕ) (resp2 : SearchResponse),
      structural_search cat { r with skip := s2, limit := l2 } = some resp2 →
      resp2.total = resp.total) ∧
    resp.results.length = min r.limit (resp.total - r.skip) ∧
    (resp.has_more = true ↔ r.skip + resp.results.length < resp.total) := by
  intro cat r resp _ hresp
  rcases Option.map_eq_some'.mp hresp with ⟨p, hp, hview⟩
  cases hc : sortColumnOf r.sort_by with
  | none => rw [execute_search, hc] at hp; cases hp
  | some c =>
    rw [execute_search_eq_some cat r c hc] at hp
    rcases Option.some.inj hp with rfl
    subst hview
    have hlen : (((apply_sorting c r.sort_order (cat.filter (structuralPred r))).drop
        r.skip).take r.limit).length
        = min r.limit ((cat.filter (structuralPred r)).length - r.skip) := by
      rw [List.length_take, List.length_drop]
      have hperm : (apply_sorting c r.sort_order (cat.filter (structuralPred r))).length
          = (cat.filter (structuralPred r)).length :=
        (List.perm_insertionSort _ _).length_eq
      rw [hperm]
    refine ⟨rfl, ?_, ?_, ?_⟩
    · intro s2 l2 resp2 hresp2
      rcases Option.map_eq_some'.mp hresp2 with ⟨p2, hp2, hview2⟩
      have hc2 : sortColumnOf ({ r with skip := s2, limit := l2 } :
          StructuralSearchRequest).sort_by = some c := hc
      rw [execute_search_eq_some cat _ c hc2] at hp2
      rcases Option.some.inj hp2 with rfl
      subst hview2
      rfl
    · simpa [List.length_map] using hlen
    · simp only [decide_eq_true_iff, List.length_map]

/-- C5 witness: the theorem applied to the three-row catalog with
`skip = 1`, `limit = 1`. -/
theorem structural_pagination_witness :
    1 ≤ reqW5.limit ∧ structural_search catW reqW5 = some respW5 ∧
    (respW5.results.length = min reqW5.limit (respW5.total - reqW5.skip) ∧
     (respW5.has_more = true ↔ reqW5.skip + respW5.results.length < respW5.total)) :=
  ⟨by decide, by decide,
   ⟨(structural_pagination catW reqW5 respW5 (by decide) (by decide)).2.2.1,
    (structural_pagination catW reqW5 respW5 (by decide) (by decide)).2.2.2⟩⟩

/-- The component facts carried by one `optLe` comparison. -/
theorem optLe_pair {α : Type} (le : α → α → Bool) (so : SortOrder)
    (x y : Option α) (hxy : optLe le so x y = true) :
    (x = none → y = none) ∧
    (∀ va vb, x = some va → y = some vb → dirLe le so va vb = true) := by
  cases x with
  | none =>
    cases y with
    | none => exact ⟨fun _ => rfl, fun va vb _ hb => by cases hb⟩
    | some b => simp [optLe] at hxy
  | some a =>
    cases y with
    | none =>
      exact ⟨(fun ha => by cases ha), (fun va vb _ hb => by cases hb)⟩
    | some b =>
      refine ⟨(fun ha => by cases ha), ?_⟩
      intro va vb ha hb
      cases Option.some.inj ha
      cases Option.some.inj hb
      exact hxy

/-- C7: in every page a structural search returns, the records with a null
value on the requested sort field come after all records with a non-null
value, in either direction, and the non-null values are monotone in the
requested direction. -/
theorem structural_sort_policy :
    ∀ (cat : List Movie) (r : StructuralSearchRequest) (c : SortColumn)
      (res : SearchPage), sortColumnOf r.sort_by = some c →
    execute_search cat r = some res →
    sortFieldOk c r.sort_order res.results := by
  intro cat r c res hc hex
  rw [execute_search_eq_some cat r c hc] at hex
  rcases Option.some.inj hex with rfl
  haveI : IsTotal Movie (fun a b => colKeyLe c r.sort_order a b = true) :=
    ⟨fun a b => by simpa using colKeyLe_total c r.sort_order a b⟩
  haveI : IsTrans Movie (fun a b => colKeyLe c r.sort_order a b = true) :=
    ⟨fun a b d h1 h2 => colKeyLe_trans c r.sort_order a b d h1 h2⟩
  have hsorted : List.Pairwise (fun a b => colKeyLe c r.sort_order a b = true)
      (apply_sorting c r.sort_order (cat.filter (structuralPred r))) :=
    List.sorted_insertionSort _ _
  have hpage := List.Pairwise.sublist
    ((List.take_sublist r.limit _).trans (List.drop_sublist r.skip _)) hsorted
  cases c with
  | rating =>
    exact hpage.imp (fun hab => optLe_pair ratLeB r.sort_order _ _ hab)
  | runtime =>
    exact hpage.imp (fun hab => optLe_pair intLeB r.sort_order _ _ hab)
  | movie_name =>
    exact hpage.imp (fun hab => optLe_pair strLeB r.sort_order _ _ hab)
  | metascore =>
    exact hpage.imp (fun hab => optLe_pair ratLeB r.sort_order _ _ hab)

/-- C7 witness: the default request (rating, descending) over the three-row
catalog with one NULL rating; the NULL-rating row comes back last. -/
theorem structural_sort_policy_witness :
    execute_search catW baseRequest = some pageW ∧
    sortFieldOk SortColumn.rating SortOrder.desc pageW.results :=
  ⟨by decide,
   structural_sort_policy catW baseRequest SortColumn.rating pageW rfl (by decide)⟩

end FlickFindr
